import Mathlib

/-!
Shallow embedding of the course-management REST API (FastAPI + Google
Datastore) for verification of its specification claims.

The datastore is modeled as an explicit `Store` value holding the five
entity collections (Users, Courses, CourseInstructor, CourseEnrolment,
UserAvatar) plus the avatar blob bucket and a fresh-key allocator.
Datastore queries are list filters; query order is list order; `put` on a
fresh key appends.  Python exceptions are `Except PyErr`; a handler that
lets an exception escape is modeled by a distinct `HOut.uncaught` result
(the framework turns it into a 500).  The embedding is deterministic: the
external I/O failure modes (network, store outages) are out of scope, so
each store call either succeeds or fails exactly as the filtered data
dictates.
-/

namespace Tarpaulin

/-- Role strings of the UserRoles enum in src/app/models/users.py. -/
def adminRole : String := "admin"

/-- UserRoles.INSTRUCTOR.value. -/
def instructorRole : String := "instructor"

/-- UserRoles.STUDENT.value. -/
def studentRole : String := "student"

/-- A Users entity: key id plus the role, sub and username properties. -/
structure UserRec where
  id : Nat
  role : String
  sub : String
  username : String
deriving Repr, DecidableEq

/-- The four mutable course properties (CourseCore in models/courses.py). -/
structure CourseCore where
  number : Int
  subject : String
  title : String
  term : String
deriving Repr, DecidableEq

/-- A Courses entity: store-assigned key id plus the core properties. -/
structure CourseEnt where
  id : Nat
  core : CourseCore
deriving Repr, DecidableEq

/-- A CourseInstructor link entity. -/
structure InstructorLink where
  course_id : Nat
  instructor_id : Nat
deriving Repr, DecidableEq

/-- A CourseEnrolment link entity. -/
structure EnrollLink where
  course_id : Nat
  student_id : Nat
deriving Repr, DecidableEq

/-- A UserAvatar entity, keyed under its parent user. -/
structure AvatarRec where
  user_id : Nat
deriving Repr, DecidableEq

/-- The datastore plus the avatar blob bucket.  `blobs` holds the user ids
whose avatar blob object exists; `nextId` is the fresh-key allocator. -/
structure Store where
  users : List UserRec
  courses : List CourseEnt
  instructors : List InstructorLink
  enrollments : List EnrollLink
  avatars : List AvatarRec
  blobs : List Nat
  nextId : Nat
deriving Repr, DecidableEq

/-- Python exceptions that the embedded code can raise.  `keyError` is the
KeyError raised by indexing a datastore Entity with the integer 0;
`attributeError` is the AttributeError raised by calling a method that the
class does not define. -/
inductive PyErr where
  | courseExc (msg : String)
  | userExc (msg : String)
  | keyError
  | attributeError
deriving Repr, DecidableEq

/-- UserClient.get_user_by_sub: filtered query on sub; empty result raises
UserException, else the first entity is returned. -/
def get_user_by_sub (st : Store) (sub : String) : Except PyErr UserRec :=
  match st.users.filter (fun u => u.sub == sub) with
  | [] => .error (.userExc "User not found")
  | u :: _ => .ok u

/-- UserClient.get_user_by_id (models/users.py lines 71 to 87): key-filtered
query; empty result raises UserException.  On a non-empty result the code
runs `entity = entity[0]` and then `entity[0]["id"] = entity.key.id`, which
indexes the Entity dict with the integer key 0 and always raises KeyError;
the except block re-raises it.  The success return is unreachable. -/
def get_user_by_id (st : Store) (uid : Nat) : Except PyErr UserRec :=
  match st.users.filter (fun u => u.id == uid) with
  | [] => .error (.userExc "User not found")
  | _ :: _ => .error .keyError

/-- UserClient.get_user_role with access="id": propagates any exception from
get_user_by_id, else returns the role.  (The user-is-None branch is dead
code because get_user_by_id never returns at all.) -/
def get_user_role_by_id (st : Store) (uid : Nat) : Except PyErr String :=
  match get_user_by_id st uid with
  | .error e => .error e
  | .ok u => .ok u.role

/-- UserClient.verify_user_has_avatar: ancestor query under the user key,
limit 1, returns whether any UserAvatar entity exists. -/
def verify_user_has_avatar (st : Store) (uid : Nat) : Bool :=
  st.avatars.any (fun a => a.user_id == uid)

/-- UserClient.create_user_avatar_record: skips when a record already
exists, else puts a new UserAvatar entity under the user key. -/
def create_user_avatar_record (st : Store) (uid : Nat) : Store :=
  if verify_user_has_avatar st uid then st
  else { st with avatars := st.avatars ++ [⟨uid⟩] }

/-- UserClient has NO method named delete_user_avatar_record (the class in
src/app/models/users.py lines 41 to 143 defines only get_user_by_sub,
get_all_users, get_user_by_id, get_user_role, verify_user_has_avatar and
create_user_avatar_record).  The attribute access
`user_client.delete_user_avatar_record` in the router therefore raises
AttributeError for every input. -/
def delete_user_avatar_record (st : Store) (uid : Nat) : Except PyErr Store :=
  .error .attributeError

/-- CoursePost: the create-course payload. -/
structure CoursePost where
  core : CourseCore
  instructor_id : Nat
deriving Repr, DecidableEq

/-- CourseClient.create_course: puts a Course entity under a fresh key,
then puts a CourseInstructor link referencing the new course id, and
returns the new id.  Two appends, in that order. -/
def create_course (st : Store) (post : CoursePost) : Nat × Store :=
  let cid := st.nextId
  let st1 : Store :=
    { st with courses := st.courses ++ [⟨cid, post.core⟩], nextId := st.nextId + 1 }
  let st2 : Store :=
    { st1 with instructors := st1.instructors ++ [⟨cid, post.instructor_id⟩] }
  (cid, st2)

/-- CourseClient.get_course: key-filtered query; empty result raises
CourseException, else the first entity is returned. -/
def get_course (st : Store) (cid : Nat) : Except PyErr CourseEnt :=
  match st.courses.filter (fun c => c.id == cid) with
  | [] => .error (.courseExc "Course not found")
  | c :: _ => .ok c

/-- CourseClient.get_instructor: query on CourseInstructor filtered by
course_id with limit 1; empty raises CourseException, else the first
match yields its instructor_id. -/
def get_instructor (st : Store) (cid : Nat) : Except PyErr Nat :=
  match st.instructors.filter (fun l => l.course_id == cid) with
  | [] => .error (.courseExc "Course instructor not found")
  | l :: _ => .ok l.instructor_id

/-- The subject comparison used by the ordered course query. -/
def subjLEb (a b : CourseEnt) : Bool := decide (a.core.subject ≤ b.core.subject)

/-- Stable sort of the Courses collection by the subject property (the
datastore query `course_query.order = ["subject"]`; the secondary order is
store-defined, modeled as the stable order of the collection). -/
def sortBySubject (cs : List CourseEnt) : List CourseEnt :=
  cs.mergeSort subjLEb

/-- The page of course entities fetched by CourseClient.get_courses before
instructor resolution: subject-ordered query, offset skipped, limit taken. -/
def coursePage (st : Store) (offset limit : Nat) : List CourseEnt :=
  ((sortBySubject st.courses).drop offset).take limit

/-- A course joined with its resolved instructor (the Course pydantic model
with instructor_id). -/
structure CourseFull where
  id : Nat
  core : CourseCore
  instructor_id : Nat
deriving Repr, DecidableEq

/-- CourseClient.get_courses: fetches the subject-ordered page, then for
each entity resolves the instructor; an entity whose get_instructor raises
CourseException is skipped (continue), not an error. -/
def get_courses (st : Store) (offset limit : Nat) : List CourseFull :=
  (coursePage st offset limit).filterMap (fun c =>
    match get_instructor st c.id with
    | .ok i => some ⟨c.id, c.core, i⟩
    | .error _ => none)

/-- CourseClient.check_if_enrolled: CourseEnrolment query filtered by both
course_id and student_id, limit 1, truthiness of the result length. -/
def check_if_enrolled (st : Store) (uid cid : Nat) : Bool :=
  st.enrollments.any (fun e => e.course_id == cid && e.student_id == uid)

/-- CourseClient.add_users_to_course: for each id in order, re-checks
enrollment against the current store and skips already-enrolled ids, else
puts a new CourseEnrolment entity.  The empty-list early return coincides
with the fold over the empty list. -/
def add_users_to_course (st : Store) (uids : List Nat) (cid : Nat) : Store :=
  uids.foldl (fun s uid =>
    if check_if_enrolled s uid cid then s
    else { s with enrollments := s.enrollments ++ [⟨cid, uid⟩] }) st

/-- CourseClient.remove_users_from_course: for each id in order, skips
non-enrolled ids, else deletes every CourseEnrolment entity matching the
(course_id, student_id) pair. -/
def remove_users_from_course (st : Store) (uids : List Nat) (cid : Nat) : Store :=
  uids.foldl (fun s uid =>
    if check_if_enrolled s uid cid then
      { s with enrollments :=
          s.enrollments.filter (fun e => !(e.course_id == cid && e.student_id == uid)) }
    else s) st

/-- An update value as it appears in the update_course dict.  Entities are
untyped dicts in the datastore; through the API layer (CoursePut) every
value is well-typed for its key, so a type-mismatched assignment is not
reachable and is modeled as the identity in setField. -/
inductive UpdVal where
  | int (n : Int)
  | str (s : String)
deriving Repr, DecidableEq

/-- The valid_properties allow-list in CourseClient.update_course. -/
def validProperties : List String := ["number", "subject", "title", "term"]

/-- The CourseException message for an invalid update key (the f-string
`Invalid course property: {property}`). -/
def invalidPropMsg (k : String) : String := "Invalid course property: " ++ k

/-- Assignment `course_entity[property] = value` for an allow-listed key. -/
def setField (c : CourseCore) (k : String) (v : UpdVal) : CourseCore :=
  if k = "number" then
    match v with
    | .int n => { c with number := n }
    | .str _ => c
  else if k = "subject" then
    match v with
    | .str s => { c with subject := s }
    | .int _ => c
  else if k = "title" then
    match v with
    | .str s => { c with title := s }
    | .int _ => c
  else if k = "term" then
    match v with
    | .str s => { c with term := s }
    | .int _ => c
  else c

/-- The update loop of CourseClient.update_course: mutates the in-memory
entity for allow-listed keys and raises CourseException at the first key
outside the allow-list. -/
def applyUpdates : CourseCore → List (String × UpdVal) → Except PyErr CourseCore
  | c, [] => .ok c
  | c, (k, v) :: rest =>
    if k ∈ validProperties then applyUpdates (setField c k v) rest
    else .error (.courseExc (invalidPropMsg k))

/-- CourseClient.update_course: gets the entity by key (CourseException if
absent), runs the update loop on the in-memory entity, and only after the
whole loop succeeds puts the entity back.  A raise inside the loop means
the put is never executed. -/
def update_course (st : Store) (cid : Nat) (updates : List (String × UpdVal)) :
    Except PyErr Store :=
  match st.courses.find? (fun c => c.id == cid) with
  | none => .error (.courseExc "Course with ID not found")
  | some ent =>
    match applyUpdates ent.core updates with
    | .error e => .error e
    | .ok core1 =>
      .ok { st with courses :=
        st.courses.map (fun c => if c.id == cid then { c with core := core1 } else c) }

/-- The store as the caller sees it after calling update_course: on an
exception the put was never reached, so the store is exactly the old one. -/
def update_course_result (st : Store) (cid : Nat)
    (updates : List (String × UpdVal)) : Store :=
  match update_course st cid updates with
  | .ok st1 => st1
  | .error _ => st

/-- The outcome of resolving a request principal, as seen by
app.dependencies: either no Authorization header / empty token, a token
that fails verification (bad header, wrong algorithm, bad signature,
expired, wrong audience or issuer, key-fetch failure), or a verified token
carrying a subject claim. -/
inductive AuthOutcome where
  | noToken
  | badToken
  | verified (sub : String)
deriving Repr, DecidableEq

/-- app.dependencies.authenticate_request: true exactly when
JWTUtils.validate_token does not raise. -/
def authenticate_request : AuthOutcome → Bool
  | .verified _ => true
  | _ => false

/-- app.dependencies.get_user_info: None when authentication failed; else
decodes the claims and looks the user up by the sub claim, collapsing any
lookup exception to None. -/
def get_user_info (st : Store) (a : AuthOutcome) : Option UserRec :=
  if authenticate_request a then
    match a with
    | .verified sub =>
      match get_user_by_sub st sub with
      | .ok u => some u
      | .error _ => none
    | _ => none
  else none

/-- The PATCH /courses/{course_id}/students request body. -/
structure EnrollmentUpdate where
  add : List Nat
  remove : List Nat
deriving Repr, DecidableEq

/-- A handler outcome: a response with a status code and the store after
the handler ran, or an exception that escaped the handler (the framework
answers 500 for it). -/
inductive HOut where
  | resp (status : Nat) (st : Store)
  | uncaught (e : PyErr) (st : Store)
deriving Repr, DecidableEq

/-- The status code of a normal response, none for an escaped exception. -/
def respStatus : HOut → Option Nat
  | .resp s _ => some s
  | .uncaught _ _ => none

/-- The store component of a handler outcome. -/
def outStore : HOut → Store
  | .resp _ st => st
  | .uncaught _ st => st

/-- The add-validation loop of update_course_enrollment: per id, the role
lookup maps UserException to 409 and any other exception (the KeyError
from get_user_by_id) to 500 via the enclosing try; a non-student role is
409; an id also present in remove is 409. -/
def validate_add (st : Store) (ids rem : List Nat) : Option Nat :=
  match ids with
  | [] => none
  | uid :: rest =>
    match get_user_role_by_id st uid with
    | .error (.userExc _) => some 409
    | .error _ => some 500
    | .ok role =>
      if role != studentRole then some 409
      else if rem.contains uid then some 409
      else validate_add st rest rem

/-- The remove-validation loop of update_course_enrollment: per id, same
exception mapping; a non-student role is 409. -/
def validate_remove (st : Store) (ids : List Nat) : Option Nat :=
  match ids with
  | [] => none
  | uid :: rest =>
    match get_user_role_by_id st uid with
    | .error (.userExc _) => some 409
    | .error _ => some 500
    | .ok role =>
      if role != studentRole then some 409
      else validate_remove st rest

/-- Router handler for PATCH /courses/{course_id}/students
(src/app/routers/courses.py lines 286 to 353): 401 without a principal,
403 for a student, then an UNGUARDED get_instructor call (its exception
escapes the handler), 403 for an instructor who is not the course
instructor, then get_course with CourseException mapped to 403, then the
two validation loops, and only then the add and remove mutations; the
fall-through return is a 200. -/
def update_course_enrollment (st : Store) (course_id : Nat)
    (upd : EnrollmentUpdate) (principal : Option UserRec) : HOut :=
  match principal with
  | none => .resp 401 st
  | some u =>
    if u.role == studentRole then .resp 403 st
    else
      match get_instructor st course_id with
      | .error e => .uncaught e st
      | .ok iid =>
        if u.id != iid && u.role == instructorRole then .resp 403 st
        else
          match get_course st course_id with
          | .error (.courseExc _) => .resp 403 st
          | .error e => .uncaught e st
          | .ok _ =>
            match validate_add st upd.add upd.remove with
            | some s => .resp s st
            | none =>
              match validate_remove st upd.remove with
              | some s => .resp s st
              | none =>
                let st1 := add_users_to_course st upd.add course_id
                let st2 := remove_users_from_course st1 upd.remove course_id
                .resp 200 st2

/-- Router handler for GET /users/{user_id} (status code only): 401
without a principal, 403 when the principal is neither admin nor the
target, then get_user_by_id inside a try whose except returns 403 — both a
missing user (UserException) and the KeyError slip land there. -/
def get_user_handler (st : Store) (user_id : Nat)
    (principal : Option UserRec) : Nat :=
  match principal with
  | none => 401
  | some u =>
    if u.role != adminRole && user_id != u.id then 403
    else
      match get_user_by_id st user_id with
      | .error _ => 403
      | .ok _ => 200

/-- Router handler for GET /users/{user_id}/avatar (status code only):
401 without a principal, 403 when the target is not the principal, 404
without an avatar record, then the blob read with its exception mapped to
404, else 200 with the image bytes. -/
def get_user_avatar (st : Store) (user_id : Nat)
    (principal : Option UserRec) : Nat :=
  match principal with
  | none => 401
  | some u =>
    if user_id != u.id then 403
    else if !(verify_user_has_avatar st user_id) then 404
    else if st.blobs.contains user_id then 200
    else 404

/-- Router handler for POST /users/{user_id}/avatar: 401 without a
principal, 403 when the target is not the principal, else uploads the blob
(overwrite by key) and puts the avatar record, answering 200 with the
avatar url. -/
def upload_user_avatar (st : Store) (user_id : Nat)
    (principal : Option UserRec) : Nat × Store :=
  match principal with
  | none => (401, st)
  | some u =>
    if user_id != u.id then (403, st)
    else
      let st1 : Store :=
        { st with blobs :=
            if st.blobs.contains user_id then st.blobs
            else st.blobs ++ [user_id] }
      (200, create_user_avatar_record st1 user_id)

/-- Router handler for DELETE /users/{user_id}/avatar (declared
status_code=204): 401 without a principal, 403 when the target is not the
principal, 404 without an avatar record, then the record delete and the
blob delete inside a try whose except answers 500.  Because the record
delete method does not exist on UserClient, the AttributeError makes every
reachable success path answer 500 instead of 204. -/
def delete_user_avatar (st : Store) (user_id : Nat)
    (principal : Option UserRec) : Nat × Store :=
  match principal with
  | none => (401, st)
  | some u =>
    if user_id != u.id then (403, st)
    else if !(verify_user_has_avatar st user_id) then (404, st)
    else
      match delete_user_avatar_record st user_id with
      | .error _ => (500, st)
      | .ok st1 =>
        if st1.blobs.contains user_id then
          (204, { st1 with blobs := st1.blobs.filter (fun b => b != user_id) })
        else (500, st1)

/-! Concrete stores used as inputs of the closed theorems below. -/

/-- A pre-provisioned admin user. -/
def demoAdmin : UserRec := ⟨1, adminRole, "a1", "admin1"⟩

/-- A pre-provisioned instructor user. -/
def demoInstructor : UserRec := ⟨2, instructorRole, "i2", "inst2"⟩

/-- A pre-provisioned student user. -/
def demoStudent : UserRec := ⟨3, studentRole, "s3", "stud3"⟩

/-- A second admin user, not the owner of any avatar. -/
def demoAdmin9 : UserRec := ⟨9, adminRole, "a9", "admin9"⟩

/-- Core fields of a demo course. -/
def demoCore : CourseCore := ⟨101, "CS", "Intro", "Fall"⟩

/-- A store with the three users, one course (id 10) taught by user 2. -/
def demoStore : Store :=
  ⟨[demoAdmin, demoInstructor, demoStudent], [⟨10, demoCore⟩], [⟨10, 2⟩], [], [], [], 11⟩

/-- A store in which user 3 has an avatar record and blob. -/
def demoAvatarStore : Store := ⟨[demoStudent], [], [], [], [⟨3⟩], [3], 1⟩

/-- A store with one admin and no courses, links or enrollments. -/
def demoEmptyStore : Store := ⟨[demoAdmin], [], [], [], [], [], 1⟩

/-- A store with a single enrollment of student 3 in course 10. -/
def demoEnrollStore : Store := ⟨[], [], [], [⟨10, 3⟩], [], [], 1⟩

/-- Claim C1: the spec promises that DELETE on the own avatar with an
existing avatar record deletes the record and the blob and answers 204.
The code cannot do so: UserClient defines no delete_user_avatar_record
method, so the attribute access raises AttributeError, the except block
answers 500 and nothing is deleted.  This theorem evaluates the handler at
the failing input (user 3 deleting its own existing avatar): the status is
500 and the store, record and blob included, is untouched. -/
theorem C1_delete_own_avatar_answers_500 :
    delete_user_avatar demoAvatarStore 3 (some demoStudent) =
      (500, demoAvatarStore) := rfl

/-- Claim C2 counterexample: an admin principal reconciling enrollment for
course id 7, which does not exist in the store, does NOT get a NotFound
response.  The unguarded get_instructor call raises CourseException, which
escapes the handler; in particular no 404 response is produced. -/
theorem C2_counterexample_missing_course_is_not_404 :
    update_course_enrollment demoEmptyStore 7 ⟨[], []⟩ (some demoAdmin) =
        .uncaught (.courseExc "Course instructor not found") demoEmptyStore ∧
      respStatus
        (update_course_enrollment demoEmptyStore 7 ⟨[], []⟩ (some demoAdmin)) ≠
          some 404 :=
  ⟨rfl, by decide⟩

/-- Claim C2 amended: for every non-student principal and every course id
for which no course exists, the reconcile handler fails before the
add/remove validation and mutates nothing, but not with NotFound: either
the unguarded instructor lookup raises and the exception escapes the
handler (a 500 at the framework), or, when an orphan CourseInstructor link
exists for the id, the course-existence failure is answered as 403. -/
theorem C2_amended_missing_course_fails_before_validation (st : Store)
    (course_id : Nat) (upd : EnrollmentUpdate) (u : UserRec)
    (hrole : u.role ≠ studentRole)
    (hmiss : ∀ c ∈ st.courses, c.id ≠ course_id) :
    (∃ e, update_course_enrollment st course_id upd (some u) = .uncaught e st) ∨
      update_course_enrollment st course_id upd (some u) = .resp 403 st := by
  have h1 : (u.role == studentRole) = false := by
    simp only [beq_eq_false_iff_ne, ne_eq]
    exact hrole
  have hgc : get_course st course_id = .error (.courseExc "Course not found") := by
    unfold get_course
    have hfil : st.courses.filter (fun c => c.id == course_id) = [] := by
      rw [List.filter_eq_nil_iff]
      intro c hc
      simpa using hmiss c hc
    rw [hfil]
  rcases hgi : get_instructor st course_id with e | iid
  · exact Or.inl ⟨e, by simp [update_course_enrollment, h1, hgi]⟩
  · rcases hb : (u.id != iid && u.role == instructorRole) with _ | _
    · exact Or.inr (by simp [update_course_enrollment, h1, hgi, hb, hgc])
    · exact Or.inr (by simp [update_course_enrollment, h1, hgi, hb, hgc])

/-- Claim C2 amended, witness at the concrete input of the counterexample:
the admin principal and the empty store satisfy the hypotheses, and the
handler indeed fails with an escaped exception or a 403. -/
theorem C2_amended_witness :
    (demoAdmin.role ≠ studentRole ∧ ∀ c ∈ demoEmptyStore.courses, c.id ≠ 7) ∧
      ((∃ e, update_course_enrollment demoEmptyStore 7 ⟨[], []⟩ (some demoAdmin) =
          .uncaught e demoEmptyStore) ∨
        update_course_enrollment demoEmptyStore 7 ⟨[], []⟩ (some demoAdmin) =
          .resp 403 demoEmptyStore) :=
  ⟨⟨by decide, by decide⟩,
    C2_amended_missing_course_fails_before_validation demoEmptyStore 7 ⟨[], []⟩
      demoAdmin (by decide) (by decide)⟩

/-- Claim C3: the spec promises that an overlapping add/remove set always
fails with Conflict (409).  It does not: the add-validation role lookup
calls get_user_by_id, whose `entity[0]["id"]` slip raises KeyError for
every EXISTING user, and the generic except answers 500 before the overlap
test is reached.  At the failing input (admin reconciling course 10 with
add = [3] and remove = [3], user 3 an existing student) the handler
answers 500, not 409; the store is unmutated as the claim demands. -/
theorem C3_overlap_answers_500_not_409 :
    update_course_enrollment demoStore 10 ⟨[3], [3]⟩ (some demoAdmin) =
      .resp 500 demoStore := rfl

/-- The update loop raises the invalid-property CourseException whenever
some key of the update map is outside the allow-list, whatever the entity
and whatever valid keys accompany it. -/
theorem applyUpdates_invalid (c : CourseCore)
    (updates : List (String × UpdVal))
    (hbad : ∃ p ∈ updates, p.1 ∉ validProperties) :
    ∃ k, k ∉ validProperties ∧
      applyUpdates c updates = .error (.courseExc (invalidPropMsg k)) := by
  induction updates generalizing c with
  | nil => simp at hbad
  | cons hd tl ih =>
    obtain ⟨k0, v0⟩ := hd
    obtain ⟨p, hp, hpbad⟩ := hbad
    by_cases hk : k0 ∈ validProperties
    · have htl : ∃ p ∈ tl, p.1 ∉ validProperties := by
        rcases List.mem_cons.mp hp with h | h
        · subst h
          exact absurd hk hpbad
        · exact ⟨p, h, hpbad⟩
      obtain ⟨k, hk1, hk2⟩ := ih (setField c k0 v0) htl
      exact ⟨k, hk1, by simpa [applyUpdates, hk] using hk2⟩
    · exact ⟨k0, hk, by simp [applyUpdates, hk]⟩

/-- Claim C4: for every existing course and every update map containing at
least one key outside the allow-list {number, subject, title, term}, the
update_course operation raises the invalid-property CourseException and,
since the put is never reached, the persisted course entity is unchanged,
the valid keys of the same map included. -/
theorem C4_update_course_invalid_field (st : Store) (cid : Nat)
    (updates : List (String × UpdVal))
    (hcourse : ∃ c ∈ st.courses, c.id = cid)
    (hbad : ∃ p ∈ updates, p.1 ∉ validProperties) :
    (∃ k, k ∉ validProperties ∧
        update_course st cid updates = .error (.courseExc (invalidPropMsg k))) ∧
      update_course_result st cid updates = st := by
  obtain ⟨c0, hc0, hcid⟩ := hcourse
  have hsome : (st.courses.find? (fun c => c.id == cid)).isSome := by
    rw [List.find?_isSome]
    exact ⟨c0, hc0, by simp [hcid]⟩
  obtain ⟨ent, hent⟩ := Option.isSome_iff_exists.mp hsome
  obtain ⟨k, hk1, hk2⟩ := applyUpdates_invalid ent.core updates hbad
  have herr : update_course st cid updates = .error (.courseExc (invalidPropMsg k)) := by
    simp only [update_course, hent, hk2]
  refine ⟨⟨k, hk1, herr⟩, ?_⟩
  unfold update_course_result
  rw [herr]

/-- Claim C4 witness: course 10 exists in the demo store; an update map
carrying the valid key title together with the invalid key credits fails
with the invalid-property exception and leaves the store, the title
included, exactly as it was. -/
theorem C4_witness :
    ((∃ c ∈ demoStore.courses, c.id = 10) ∧
      (∃ p ∈ [("title", UpdVal.str "New"), ("credits", UpdVal.int 3)],
        p.1 ∉ validProperties)) ∧
      ((∃ k, k ∉ validProperties ∧
          update_course demoStore 10
              [("title", UpdVal.str "New"), ("credits", UpdVal.int 3)] =
            .error (.courseExc (invalidPropMsg k))) ∧
        update_course_result demoStore 10
            [("title", UpdVal.str "New"), ("credits", UpdVal.int 3)] = demoStore) :=
  ⟨⟨by decide, by decide⟩,
    C4_update_course_invalid_field demoStore 10
      [("title", UpdVal.str "New"), ("credits", UpdVal.int 3)]
      (by decide) (by decide)⟩

/-- Claim C5: if createCourse succeeds with instructor i and returns the
fresh course id c, then getInstructor c resolves to i.  The hypothesis is
the store invariant that no pre-existing CourseInstructor link already
references the fresh id (guaranteed when every link references an existing
course, since the allocator id is fresh). -/
theorem C5_create_course_then_get_instructor (st : Store) (post : CoursePost)
    (hfresh : ∀ l ∈ st.instructors, l.course_id ≠ st.nextId) :
    get_instructor (create_course st post).2 (create_course st post).1 =
      .ok post.instructor_id := by
  have hnil : st.instructors.filter (fun l => l.course_id == st.nextId) = [] := by
    rw [List.filter_eq_nil_iff]
    intro l hl
    simpa using hfresh l hl
  simp [create_course, get_instructor, List.filter_append, hnil]

/-- Claim C5 witness: creating a course taught by user 2 in the demo store
(fresh id 11, no link references 11) and resolving its instructor yields
2. -/
theorem C5_witness :
    (∀ l ∈ demoStore.instructors, l.course_id ≠ demoStore.nextId) ∧
      get_instructor (create_course demoStore ⟨demoCore, 2⟩).2
          (create_course demoStore ⟨demoCore, 2⟩).1 = .ok 2 :=
  ⟨by decide, C5_create_course_then_get_instructor demoStore ⟨demoCore, 2⟩ (by decide)⟩

/-- Two CourseEnrolment entities link the same (course, student) pair. -/
def samePair (a b : EnrollLink) : Prop :=
  a.course_id = b.course_id ∧ a.student_id = b.student_id

instance (a b : EnrollLink) : Decidable (samePair a b) := by
  unfold samePair
  infer_instance

/-- The no-duplicate-pair invariant of the CourseEnrolment collection. -/
def noDupEnroll (st : Store) : Prop :=
  st.enrollments.Pairwise (fun a b => ¬ samePair a b)

instance (st : Store) : Decidable (noDupEnroll st) := by
  unfold noDupEnroll
  exact List.instDecidablePairwise _

/-- One iteration of the add loop preserves the no-duplicate invariant:
an enrolled id is skipped, and a new entity is only appended when no
entity with the same pair exists. -/
theorem noDup_add_step (s : Store) (uid cid : Nat) (h : noDupEnroll s) :
    noDupEnroll (if check_if_enrolled s uid cid then s
      else { s with enrollments := s.enrollments ++ [⟨cid, uid⟩] }) := by
  by_cases hc : check_if_enrolled s uid cid
  · simpa [hc] using h
  · have hfalse : check_if_enrolled s uid cid = false := by
      simpa using hc
    simp only [hfalse, Bool.false_eq_true, if_false]
    unfold noDupEnroll at h ⊢
    rw [List.pairwise_append]
    refine ⟨h, by simp, ?_⟩
    intro a ha b hb hsp
    have hb1 : b = (⟨cid, uid⟩ : EnrollLink) := by simpa using hb
    subst hb1
    unfold check_if_enrolled at hfalse
    have hnot := List.any_eq_false.mp hfalse a ha
    exact hnot (by simp [hsp.1, hsp.2])

/-- The whole add loop preserves the no-duplicate invariant, from any
store satisfying it. -/
theorem add_users_preserves_noDup (ids : List Nat) (cid : Nat) :
    ∀ s : Store, noDupEnroll s → noDupEnroll (add_users_to_course s ids cid) := by
  induction ids with
  | nil =>
    intro s h
    simpa [add_users_to_course] using h
  | cons uid rest ih =>
    intro s h
    have h1 := noDup_add_step s uid cid h
    simpa [add_users_to_course] using
      ih (if check_if_enrolled s uid cid then s
        else { s with enrollments := s.enrollments ++ [⟨cid, uid⟩] }) h1

/-- Claim C6: addStudents is idempotent per id.  For every store
satisfying the no-duplicate-pair invariant, any add call preserves the
invariant (no second CourseEnrolment for a pair is ever created), and an
add of an id already enrolled in the course changes nothing at all.  The
operation is total, so it raises no error. -/
theorem C6_add_students_idempotent (st : Store) (ids : List Nat) (cid : Nat)
    (hnd : noDupEnroll st) :
    noDupEnroll (add_users_to_course st ids cid) ∧
      ∀ uid, check_if_enrolled st uid cid = true →
        add_users_to_course st [uid] cid = st := by
  refine ⟨add_users_preserves_noDup ids cid st hnd, ?_⟩
  intro uid h
  simp [add_users_to_course, h]

/-- Claim C6 witness: the demo enrollment store (student 3 in course 10)
satisfies the invariant; adding ids 4, 4, 3 preserves it, and re-adding
the already-enrolled id 3 returns the store unchanged. -/
theorem C6_witness :
    noDupEnroll demoEnrollStore ∧
      noDupEnroll (add_users_to_course demoEnrollStore [4, 4, 3] 10) ∧
      add_users_to_course demoEnrollStore [3] 10 = demoEnrollStore :=
  ⟨by decide,
    (C6_add_students_idempotent demoEnrollStore [4, 4, 3] 10 (by decide)).1,
    (C6_add_students_idempotent demoEnrollStore [4, 4, 3] 10 (by decide)).2 3
      (by decide)⟩

/-- A successful get_instructor exhibits a CourseInstructor link for the
course in the store (the first match of the filtered query). -/
theorem get_instructor_ok_mem (st : Store) (cid i : Nat)
    (h : get_instructor st cid = .ok i) :
    ∃ l ∈ st.instructors, l.course_id = cid ∧ l.instructor_id = i := by
  unfold get_instructor at h
  rcases hfl : st.instructors.filter (fun l => l.course_id == cid) with _ | ⟨l, rest⟩
  · rw [hfl] at h
    cases h
  · rw [hfl] at h
    have hli : l.instructor_id = i := by
      injection h
    have hmem : l ∈ st.instructors.filter (fun l => l.course_id == cid) := by
      rw [hfl]
      exact List.mem_cons_self _ _
    obtain ⟨hm, hp⟩ := List.mem_filter.mp hmem
    exact ⟨l, hm, by simpa using hp, hli⟩

/-- Every course returned by get_courses carries a resolvable instructor
link in the store. -/
theorem mem_get_courses_link (st : Store) (offset limit : Nat)
    (r : CourseFull) (hr : r ∈ get_courses st offset limit) :
    ∃ l ∈ st.instructors, l.course_id = r.id := by
  unfold get_courses at hr
  obtain ⟨a, ha, hfa⟩ := List.mem_filterMap.mp hr
  rcases hgi : get_instructor st a.id with e | i
  · rw [hgi] at hfa
    simp at hfa
  · rw [hgi] at hfa
    have hra : r = ⟨a.id, a.core, i⟩ := by
      have := hfa
      simp at this
      exact this.symm
    obtain ⟨l, hl, hcid, _⟩ := get_instructor_ok_mem st a.id i hgi
    exact ⟨l, hl, by rw [hra]; exact hcid⟩

/-- The subject-ordered query yields a list pairwise non-decreasing by
subject. -/
theorem sortBySubject_sorted (cs : List CourseEnt) :
    (sortBySubject cs).Pairwise (fun a b => a.core.subject ≤ b.core.subject) := by
  have htrans : ∀ a b c : CourseEnt,
      subjLEb a b = true → subjLEb b c = true → subjLEb a c = true := by
    intro a b c hab hbc
    simp only [subjLEb, decide_eq_true_eq] at hab hbc ⊢
    exact le_trans hab hbc
  have htotal : ∀ a b : CourseEnt, (subjLEb a b || subjLEb b a) = true := by
    intro a b
    simp only [subjLEb, Bool.or_eq_true, decide_eq_true_eq]
    exact le_total _ _
  have h := @List.sorted_mergeSort CourseEnt subjLEb htrans htotal cs
  unfold sortBySubject
  exact h.imp (fun hab => by simpa [subjLEb] using hab)

/-- The fetched page inherits the subject order. -/
theorem coursePage_sorted (st : Store) (offset limit : Nat) :
    (coursePage st offset limit).Pairwise
      (fun a b => a.core.subject ≤ b.core.subject) := by
  have h := sortBySubject_sorted st.courses
  unfold coursePage
  exact List.Pairwise.sublist
    ((List.take_sublist _ _).trans (List.drop_sublist _ _)) h

/-- Claim C7: listCourses returns a page that is non-decreasing by the
subject field; every returned course has a resolvable instructor link; the
page never exceeds the limit; and a fetched course with no resolvable
instructor is silently omitted from the page (the operation is total, so
no error is raised), which is why a page may hold fewer than limit
courses. -/
theorem C7_list_courses_sorted_and_drops_unresolvable (st : Store)
    (offset limit : Nat) :
    (get_courses st offset limit).Pairwise
        (fun a b => a.core.subject ≤ b.core.subject) ∧
      (∀ r ∈ get_courses st offset limit,
        ∃ l ∈ st.instructors, l.course_id = r.id) ∧
      (get_courses st offset limit).length ≤ limit ∧
      ∀ c ∈ coursePage st offset limit,
        (∀ l ∈ st.instructors, l.course_id ≠ c.id) →
          ∀ r ∈ get_courses st offset limit, r.id ≠ c.id := by
  refine ⟨?_, ?_, ?_, ?_⟩
  · have hpage := coursePage_sorted st offset limit
    unfold get_courses
    rw [List.pairwise_filterMap]
    refine hpage.imp ?_
    intro a b hab x hx y hy
    rcases hga : get_instructor st a.id with e | i
    · rw [hga] at hx
      simp at hx
    · rw [hga] at hx
      rcases hgb : get_instructor st b.id with e2 | i2
      · rw [hgb] at hy
        simp at hy
      · rw [hgb] at hy
        have hx1 : x = ⟨a.id, a.core, i⟩ := by
          have := hx
          simp at this
          exact this.symm
        have hy1 : y = ⟨b.id, b.core, i2⟩ := by
          have := hy
          simp at this
          exact this.symm
        rw [hx1, hy1]
        exact hab
  · exact fun r hr => mem_get_courses_link st offset limit r hr
  · unfold get_courses
    refine le_trans (List.length_filterMap_le _ _) ?_
    unfold coursePage
    exact List.length_take_le _ _
  · intro c hc hno r hr hre
    obtain ⟨l, hl, hcid⟩ := mem_get_courses_link st offset limit r hr
    exact hno l hl (hcid.trans hre)

/-- Claim C8: for every principal and target id with principal.id
different from the target, the avatar read, upload, and delete handlers
all answer 403 and mutate nothing, whatever the role of the principal: the
three handlers test only the identity, never the role, so an admin is
denied like anyone else. -/
theorem C8_avatar_non_self_forbidden (st : Store) (u : UserRec) (t : Nat)
    (h : t ≠ u.id) :
    get_user_avatar st t (some u) = 403 ∧
      upload_user_avatar st t (some u) = (403, st) ∧
      delete_user_avatar st t (some u) = (403, st) := by
  have hb : (t != u.id) = true := by
    simpa [bne_iff_ne] using h
  refine ⟨?_, ?_, ?_⟩
  · simp [get_user_avatar, hb]
  · simp [upload_user_avatar, hb]
  · simp [delete_user_avatar, hb]

/-- Claim C8 witness: an admin principal (id 9) targeting the avatar of
user 3 (who has an avatar record) is denied with 403 on read, upload and
delete. -/
theorem C8_witness :
    (3 : Nat) ≠ demoAdmin9.id ∧
      (get_user_avatar demoAvatarStore 3 (some demoAdmin9) = 403 ∧
        upload_user_avatar demoAvatarStore 3 (some demoAdmin9) =
          (403, demoAvatarStore) ∧
        delete_user_avatar demoAvatarStore 3 (some demoAdmin9) =
          (403, demoAvatarStore)) :=
  ⟨by decide, C8_avatar_non_self_forbidden demoAvatarStore demoAdmin9 3 (by decide)⟩

/-- Claim C9: principal resolution collapses every failure mode to None:
a request with no bearer token, a token failing verification, and verified
claims whose subject matches no local user all make get_user_info return
None, indistinguishably. -/
theorem C9_principal_resolution_collapses (st : Store) (sub : String)
    (hmiss : ∀ u ∈ st.users, u.sub ≠ sub) :
    get_user_info st .noToken = none ∧
      get_user_info st .badToken = none ∧
      get_user_info st (.verified sub) = none := by
  refine ⟨rfl, rfl, ?_⟩
  have hfil : st.users.filter (fun u => u.sub == sub) = [] := by
    rw [List.filter_eq_nil_iff]
    intro u hu
    simpa using hmiss u hu
  simp [get_user_info, authenticate_request, get_user_by_sub, hfil]

/-- Claim C9 witness: in the demo store no user has the subject nobody,
and the three failure modes all resolve to None. -/
theorem C9_witness :
    (∀ u ∈ demoStore.users, u.sub ≠ "nobody") ∧
      (get_user_info demoStore .noToken = none ∧
        get_user_info demoStore .badToken = none ∧
        get_user_info demoStore (.verified "nobody") = none) :=
  ⟨by decide, C9_principal_resolution_collapses demoStore "nobody" (by decide)⟩

/-- Claim C10: for an authenticated principal passing the role/ownership
check (admin, or requesting itself), GET /users/{id} for an id matching no
stored user answers 403, not 404: the missing-user UserException lands in
the catch-all branch that returns Forbidden. -/
theorem C10_get_user_missing_target_forbidden (st : Store) (uid : Nat)
    (u : UserRec)
    (hpass : u.role = adminRole ∨ uid = u.id)
    (hmiss : ∀ x ∈ st.users, x.id ≠ uid) :
    get_user_handler st uid (some u) = 403 := by
  have hfil : st.users.filter (fun x => x.id == uid) = [] := by
    rw [List.filter_eq_nil_iff]
    intro x hx
    simpa using hmiss x hx
  have hgu : get_user_by_id st uid = .error (.userExc "User not found") := by
    unfold get_user_by_id
    rw [hfil]
  rcases hpass with h | h
  · have hb : (u.role != adminRole) = false := by simp [h]
    simp [get_user_handler, hb, hgu]
  · have hb : (uid != u.id) = false := by simp [h]
    simp [get_user_handler, hb, hgu]

/-- Claim C10 witness: the admin of the demo store requesting user 77,
which does not exist, receives 403. -/
theorem C10_witness :
    ((demoAdmin.role = adminRole ∨ (77 : Nat) = demoAdmin.id) ∧
      ∀ x ∈ demoStore.users, x.id ≠ 77) ∧
      get_user_handler demoStore 77 (some demoAdmin) = 403 :=
  ⟨⟨by decide, by decide⟩,
    C10_get_user_missing_target_forbidden demoStore 77 demoAdmin
      (by decide) (by decide)⟩

end Tarpaulin
